import Mathlib

/-!
Shallow embedding of `cmd/stunstamp/stunstamp_linux.go` (tailscale-cgnat).

The file models the measurement engine of the stunstamp tool: the
control-message timestamp decoder, the ICMP and STUN (kernel path)
measurement functions with their request/response correlation loops, the
connection factories and the protocol capability matrix.

External library calls (`unix.ParseSocketControlMessage`,
`icmp.ParseMessage`, `icmp.Message.Marshal`, `stun.Request`,
`stun.ParseResponse`) are abstracted as fields of an environment
structure `Env`; socket I/O (send results, receive events, wall-clock
samples, random values) is supplied as explicit input data, so each Go
function becomes a pure Lean function of its environment and inputs.
Bytes are `List Nat`; `time.Time` and `time.Duration` are `Int`
nanoseconds.
-/

/-- Go error values as relevant to this code: `errors.New` / `fmt.Errorf`
with `%v` produce a non-chaining error (`basic`), `fmt.Errorf` with `%w`
produces a chaining error (`wrap`) whose `Unwrap` returns the inner error. -/
inductive GoError where
  | basic (msg : String)
  | wrap (msg : String) (inner : GoError)
deriving DecidableEq

/-- The rendered message of an error (`Error()`); a wrapping
`fmt.Errorf("prefix: %w", err)` renders as `"prefix: " + err.Error()`. -/
def GoError.message : GoError → String
  | .basic s => s
  | .wrap s e => s ++ ": " ++ e.message

/-- Go `errors.Unwrap`: `nil` (here `none`) for a non-chaining error,
the inner error for a `%w`-wrapping one. -/
def GoError.unwrap : GoError → Option GoError
  | .basic _ => none
  | .wrap _ e => some e

deriving instance DecidableEq for Except

/-- A point in time (`time.Time`), as nanoseconds since the Unix epoch. -/
abbrev Time := Int

/-- A `time.Duration`, in nanoseconds; `rxAt.Sub(txAt)` is `rxAt - txAt`. -/
abbrev Duration := Int

/-- Go `time.Unix(sec, nsec)`: the instant `sec` seconds and `nsec`
nanoseconds after the Unix epoch. -/
def timeUnix (sec nsec : Int) : Time :=
  sec * 1000000000 + nsec

/-- Linux `unix.SOL_SOCKET`. -/
def SOL_SOCKET : Int := 1

/-- Linux `unix.SO_TIMESTAMPING_NEW`. -/
def SO_TIMESTAMPING_NEW : Int := 65

/-- Linux `unix.AF_INET`. -/
def AF_INET : Nat := 2

/-- Linux `unix.AF_INET6`. -/
def AF_INET6 : Nat := 10

/-- Linux `unix.SOCK_DGRAM`. -/
def SOCK_DGRAM : Nat := 2

/-- Linux `unix.IPPROTO_UDP`. -/
def IPPROTO_UDP : Nat := 17

/-- Linux `unix.IPPROTO_ICMP`. -/
def IPPROTO_ICMP : Nat := 1

/-- Linux `unix.IPPROTO_ICMPV6`. -/
def IPPROTO_ICMPV6 : Nat := 58

/-- A parsed socket control message (`unix.SocketControlMessage`):
header level, header type, and the payload bytes. -/
structure Cmsg where
  level : Int
  type : Int
  data : List Nat
deriving DecidableEq

/-- Go `binary.NativeEndian.Uint64` on Linux targets of this program
(little-endian): read the first 8 bytes of the list as an unsigned
little-endian 64-bit integer. -/
def nativeEndianUint64 (bs : List Nat) : Nat :=
  (bs.take 8).reverse.foldl (fun acc b => acc * 256 + b % 256) 0

/-- Go's `int64(u)` conversion of an unsigned 64-bit value:
two's-complement reinterpretation. -/
def int64OfUint64 (n : Nat) : Int :=
  if n % 2 ^ 64 < 2 ^ 63 then (n % 2 ^ 64 : Int) else (n % 2 ^ 64 : Int) - 2 ^ 64

/-- ICMP message types as used by `golang.org/x/net`: an `ipv4.ICMPType`
or `ipv6.ICMPType`, each an integer code. -/
inductive ICMPType where
  | v4 (n : Nat)
  | v6 (n : Nat)
deriving DecidableEq

/-- Go `icmp.Type.Protocol()`: 1 (ICMP) for v4 types, 58 (IPv6-ICMP) for v6. -/
def ICMPType.protocol : ICMPType → Nat
  | .v4 _ => 1
  | .v6 _ => 58

/-- The constant `ipv4.ICMPTypeEcho` (echo request, type 8). -/
def ipv4.ICMPTypeEcho : ICMPType := .v4 8

/-- The constant `ipv4.ICMPTypeEchoReply` (type 0). -/
def ipv4.ICMPTypeEchoReply : ICMPType := .v4 0

/-- The constant `ipv6.ICMPTypeEchoRequest` (type 128). -/
def ipv6.ICMPTypeEchoRequest : ICMPType := .v6 128

/-- The constant `ipv6.ICMPTypeEchoReply` (type 129). -/
def ipv6.ICMPTypeEchoReply : ICMPType := .v6 129

/-- Go `icmp.Echo`: an echo request/reply body. -/
structure Echo where
  ID : Int
  Seq : Int
  Data : List Nat
deriving DecidableEq

/-- The body of a parsed ICMP message: either an `*icmp.Echo` (so the Go
type assertion `.(*icmp.Echo)` succeeds) or some other body type. -/
inductive MessageBody where
  | echo (e : Echo)
  | other
deriving DecidableEq

/-- Go `icmp.Message` (checksum omitted; it is neither set nor inspected by
this program). Fields `type`, `code`, `body` are Go's `Type`, `Code`,
`Body` (capitalized Go names collide with Lean keywords). -/
structure Message where
  type : ICMPType
  code : Int
  body : MessageBody
deriving DecidableEq

/-- A STUN transaction ID (`stun.TxID`, a 12-byte array), as its bytes. -/
abbrev TxID := List Nat

/-- One successful `Recvmsg` call: the `n` bytes read into `buf`, the
`oobn` ancillary bytes read into `oob`, and the wall-clock instant
`time.Now()` would return right after the call. -/
structure RecvEvent where
  buf : List Nat
  oob : List Nat
  now : Time
deriving DecidableEq

/-- Abstracted external library functions used by the measurement engine.
Each field models one function imported from outside this repository. -/
structure Env where
  /-- Models `unix.ParseSocketControlMessage`. -/
  parseSocketControlMessage : List Nat → Except GoError (List Cmsg)
  /-- Models `icmp.ParseMessage(proto, buf)`. -/
  parseICMPMessage : Nat → List Nat → Except GoError Message
  /-- Models `icmp.Message.Marshal(nil)`. -/
  marshalICMP : Message → Except GoError (List Nat)
  /-- Models `stun.Request(txID)`: the binding-request bytes for a transaction ID. -/
  stunRequest : TxID → List Nat
  /-- Models `stun.ParseResponse(buf)`: the embedded transaction ID on success. -/
  stunParseResponse : List Nat → Except GoError TxID

/-- Does this control message carry the new-format timestamping report
(the condition of the scan in `parseTimestampFromCmsgs`)? -/
def isTimestampCmsg (m : Cmsg) : Prop :=
  m.level = SOL_SOCKET ∧ m.type = SO_TIMESTAMPING_NEW ∧ 16 ≤ m.data.length

instance (m : Cmsg) : Decidable (isTimestampCmsg m) := by
  unfold isTimestampCmsg; infer_instance

/-- The timestamp decoded from a matching control message's payload:
first 8 bytes native-endian signed seconds, next 8 bytes native-endian
signed nanoseconds, combined by `time.Unix`. -/
def cmsgTimestamp (m : Cmsg) : Time :=
  timeUnix (int64OfUint64 (nativeEndianUint64 (m.data.take 8)))
    (int64OfUint64 (nativeEndianUint64 ((m.data.drop 8).take 8)))

/-- The scan loop of `parseTimestampFromCmsgs` over the parsed control
messages: return the timestamp of the first matching message, or the
"failed to parse timestamp from cmsgs" error if none matches. -/
def scanCmsgs : List Cmsg → Except GoError Time
  | [] => .error (.basic "failed to parse timestamp from cmsgs")
  | m :: rest =>
    if isTimestampCmsg m then .ok (cmsgTimestamp m) else scanCmsgs rest

/-- Function `parseTimestampFromCmsgs(oob)`: parse the ancillary buffer as control
messages (wrapping a parse failure with `%w`), then scan for the
`SOL_SOCKET` / `SO_TIMESTAMPING_NEW` message with at least 16 payload
bytes and decode its seconds/nanoseconds. -/
def parseTimestampFromCmsgs (env : Env) (oob : List Nat) : Except GoError Time :=
  match env.parseSocketControlMessage oob with
  | .error e => .error (.wrap "error parsing oob as cmsgs" e)
  | .ok msgs => scanCmsgs msgs

/-- Modelled from the spec: the `timestampSource` enum
(`{kernel, userspace}`) is declared in a sibling file of the repository
(`stunstamp.go`) that is not under `src/`; only its two values are used
here. -/
inductive timestampSource where
  | kernel
  | userspace
deriving DecidableEq

/-- Modelled from the spec: the `protocol` enum
(`{STUN, ICMP, TCP, HTTPS}`) is declared in a sibling file of the
repository (`stunstamp.go`) that is not under `src/`. -/
inductive protocol where
  | STUN
  | ICMP
  | TCP
  | HTTPS
deriving DecidableEq

/-- Modelled from the spec: `protocolSupportInfo`, the per-protocol
capability descriptor, declared in `stunstamp.go` (not under `src/`). -/
structure protocolSupportInfo where
  kernelTS : Bool
  userspaceTS : Bool
  stableConn : Bool
deriving DecidableEq

/-- Function `getProtocolSupportInfo`: the static capability table. -/
def getProtocolSupportInfo (p : protocol) : protocolSupportInfo :=
  match p with
  | .STUN => { kernelTS := true, userspaceTS := true, stableConn := true }
  | .HTTPS => { kernelTS := false, userspaceTS := true, stableConn := true }
  | .TCP => { kernelTS := true, userspaceTS := false, stableConn := true }
  | .ICMP => { kernelTS := true, userspaceTS := true, stableConn := false }

/-- Linux `unix.SOF_TIMESTAMPING_TX_SOFTWARE` (tx timestamp generation in the
device driver). -/
def SOF_TIMESTAMPING_TX_SOFTWARE : Nat := 2

/-- Linux `unix.SOF_TIMESTAMPING_RX_SOFTWARE` (rx timestamp generation in the
kernel). -/
def SOF_TIMESTAMPING_RX_SOFTWARE : Nat := 8

/-- Linux `unix.SOF_TIMESTAMPING_SOFTWARE` (report software timestamps). -/
def SOF_TIMESTAMPING_SOFTWARE : Nat := 16

/-- The `timestampingFlags` constant: the three timestamping flags ORed. -/
def timestampingFlags : Nat :=
  SOF_TIMESTAMPING_TX_SOFTWARE ||| SOF_TIMESTAMPING_RX_SOFTWARE |||
    SOF_TIMESTAMPING_SOFTWARE

/-- A `*socket.Conn` handle (only identity matters to this model). -/
structure Conn where
  fd : Nat
deriving DecidableEq

/-- External call results for `getUDPConnKernelTimestamp`: the outcomes
of `socket.Socket(AF_INET6, SOCK_DGRAM, IPPROTO_UDP, "udp", nil)`, of
`Bind` on the wildcard `SockaddrInet6`, and of `SetsockoptInt` as a
function of (level, option, value). -/
structure UDPSockEnv where
  socketRes : Except GoError Conn
  bindRes : Except GoError Unit
  setsockoptInt : Int → Int → Nat → Except GoError Unit

/-- Function `getUDPConnKernelTimestamp`: open an `AF_INET6` UDP datagram socket,
bind it to the wildcard address, enable `SO_TIMESTAMPING_NEW`; on any
failure return `nil` together with the error. The pair models Go's
`(io.ReadWriteCloser, error)` return. -/
def getUDPConnKernelTimestamp (ext : UDPSockEnv) : Option Conn × Option GoError :=
  match ext.socketRes with
  | .error err => (none, some err)
  | .ok sconn =>
    match ext.bindRes with
    | .error err => (none, some err)
    | .ok _ =>
      match ext.setsockoptInt SOL_SOCKET SO_TIMESTAMPING_NEW timestampingFlags with
      | .error err => (none, some err)
      | .ok _ => (some sconn, none)

/-- External call results for `getICMPConn`: the outcome of
`socket.Socket(domain, SOCK_DGRAM, proto, "icmp", nil)` as a function of
(domain, proto), and of `SetsockoptInt` as a function of
(level, option, value). -/
structure ICMPSockEnv where
  socketRes : Nat → Nat → Except GoError Conn
  setsockoptInt : Int → Int → Nat → Except GoError Unit

/-- Function `getICMPConn(forDst, source)`: open a datagram ICMP socket for the
destination's address family; when `source` is kernel, additionally set
`SO_TIMESTAMPING_NEW` and return the connection together with that
call's error value (the connection is returned even when the option-set
fails). -/
def getICMPConn (ext : ICMPSockEnv) (forDstIs6 : Bool) (source : timestampSource) :
    Option Conn × Option GoError :=
  let domain := if forDstIs6 then AF_INET6 else AF_INET
  let proto := if forDstIs6 then IPPROTO_ICMPV6 else IPPROTO_ICMP
  match ext.socketRes domain proto with
  | .error err => (none, some err)
  | .ok conn =>
    if source = .kernel then
      match ext.setsockoptInt SOL_SOCKET SO_TIMESTAMPING_NEW timestampingFlags with
      | .error err => (some conn, some err)
      | .ok _ => (some conn, none)
    else
      (some conn, none)

/-- The fixed fingerprint payload `[]byte("stunstamp")`. -/
def stunstampPayload : List Nat :=
  [115, 116, 117, 110, 115, 116, 97, 109, 112]

/-- The transmitted echo body `txBody`: identifier 0 (the kernel
overrides and routes it), the probe's random sequence number, and the
fingerprint payload. -/
def icmpEchoBody (seq : Int) : Echo :=
  { ID := 0, Seq := seq, Data := stunstampPayload }

/-- The transmitted message `txMsg`: the echo body, code 0 (the Go zero
value, never assigned), and the echo-request type of the destination's
address family. -/
def icmpTxMessage (dstIs4 : Bool) (seq : Int) : Message :=
  { type := if dstIs4 then ipv4.ICMPTypeEcho else ipv6.ICMPTypeEchoRequest
    code := 0
    body := .echo (icmpEchoBody seq) }

/-- The `MSG_ERRQUEUE` wait loop of `measureICMPRTT` (kernel timestamp
source): read looped-back transmits until one, parsed from the tail of
the read buffer, is an echo body whose sequence, code and payload match
what was sent (the type comparison in the source compares
`txLoopedMsg.Type` against itself, kept faithfully here); then decode
the tx timestamp from its ancillary data. `fin` is the receive error the
next `Recvmsg` returns once the listed successful receives are
exhausted (the bounded deadline guarantees such an error exists). -/
def icmpTxLoop (env : Env) (txBuf : List Nat) (txMsg : Message) (txBody : Echo)
    (fin : GoError) : List RecvEvent → Except GoError Time
  | [] => .error (.basic ("recvmsg (MSG_ERRQUEUE) error: " ++ fin.message))
  | ev :: rest =>
    if ev.buf.length < txBuf.length then
      icmpTxLoop env txBuf txMsg txBody fin rest
    else
      match env.parseICMPMessage txMsg.type.protocol
          (ev.buf.drop (ev.buf.length - txBuf.length)) with
      | .error _ => icmpTxLoop env txBuf txMsg txBody fin rest
      | .ok txLoopedMsg =>
        match txLoopedMsg.body with
        | .other => icmpTxLoop env txBuf txMsg txBody fin rest
        | .echo txLoopedBody =>
          if txLoopedBody.Seq ≠ txBody.Seq ∨ txLoopedMsg.code ≠ txMsg.code ∨
              txLoopedMsg.type ≠ txLoopedMsg.type ∨
              ¬txLoopedBody.Data = txBody.Data then
            icmpTxLoop env txBuf txMsg txBody fin rest
          else
            match parseTimestampFromCmsgs env ev.oob with
            | .error e => .error (.basic ("failed to get tx timestamp: " ++ e.message))
            | .ok t => .ok t

/-- The ordinary-receive reply wait loop of `measureICMPRTT`: discard
every datagram that fails to parse, whose type is not the echo-reply
counterpart of the transmitted type, whose code differs, whose body is
not an echo, or whose sequence or payload differ; on the first match,
return `rxAt.Sub(txAt)` where `rxAt` is the wall clock sampled after the
read (userspace source) or decoded from the read's ancillary data
(kernel source). -/
def icmpRxLoop (env : Env) (source : timestampSource) (txMsg : Message)
    (txBody : Echo) (txAt : Time) (fin : GoError) :
    List RecvEvent → Except GoError Duration
  | [] => .error (.wrap "recvmsg error" fin)
  | ev :: rest =>
    let rxAt := ev.now
    match env.parseICMPMessage txMsg.type.protocol ev.buf with
    | .error _ => icmpRxLoop env source txMsg txBody txAt fin rest
    | .ok rxMsg =>
      if (if txMsg.type = ipv4.ICMPTypeEcho
          then rxMsg.type ≠ ipv4.ICMPTypeEchoReply
          else rxMsg.type ≠ ipv6.ICMPTypeEchoReply) then
        icmpRxLoop env source txMsg txBody txAt fin rest
      else if rxMsg.code ≠ txMsg.code then
        icmpRxLoop env source txMsg txBody txAt fin rest
      else
        match rxMsg.body with
        | .other => icmpRxLoop env source txMsg txBody txAt fin rest
        | .echo rxBody =>
          if rxBody.Seq ≠ txBody.Seq ∨ ¬rxBody.Data = txBody.Data then
            icmpRxLoop env source txMsg txBody txAt fin rest
          else if source = .kernel then
            match parseTimestampFromCmsgs env ev.oob with
            | .error e => .error (.basic ("failed to get rx timestamp: " ++ e.message))
            | .ok t => .ok (t - txAt)
          else
            .ok (rxAt - txAt)

/-- The per-invocation inputs of `measureICMPRTT` that the outside world
supplies: the random sequence value (`rand.Int32N(math.MaxUint16)`), the
wall clock before the send, the `Sendto` outcome, and the two receive
streams (error queue, then ordinary receives), each a finite list of
successful receives followed by the error the next receive would
return. -/
structure ICMPInputs where
  seq : Int
  txNow : Time
  sendRes : Except GoError Unit
  errq : List RecvEvent
  errqFin : GoError
  rx : List RecvEvent
  rxFin : GoError

/-- Function `measureICMPRTT`: build and marshal the echo request, send it
(`sendto error` propagated with `%v`), then — for the kernel source —
obtain the tx timestamp from the error-queue loop (otherwise use the
wall clock sampled before the send), and finally run the reply wait
loop. -/
def measureICMPRTT (env : Env) (source : timestampSource) (dstIs4 : Bool)
    (inp : ICMPInputs) : Except GoError Duration :=
  let txBody := icmpEchoBody inp.seq
  let txMsg := icmpTxMessage dstIs4 inp.seq
  match env.marshalICMP txMsg with
  | .error e => .error e
  | .ok txBuf =>
    let txAt := inp.txNow
    match inp.sendRes with
    | .error e => .error (.basic ("sendto error: " ++ e.message))
    | .ok _ =>
      let txAtRes : Except GoError Time :=
        if source = .kernel then
          icmpTxLoop env txBuf txMsg txBody inp.errqFin inp.errq
        else
          .ok txAt
      match txAtRes with
      | .error e => .error e
      | .ok txAtFinal => icmpRxLoop env source txMsg txBody txAtFinal inp.rxFin inp.rx

/-- The `MSG_ERRQUEUE` wait loop of `measureSTUNRTTKernel`: spin until a
looped-back read whose tail is byte-equal to the transmitted request,
then decode the tx timestamp from its ancillary data. -/
def stunTxLoop (env : Env) (req : List Nat) (fin : GoError) :
    List RecvEvent → Except GoError Time
  | [] => .error (.basic ("recvmsg (MSG_ERRQUEUE) error: " ++ fin.message))
  | ev :: rest =>
    if ev.buf.length < req.length ∨ ¬ev.buf.drop (ev.buf.length - req.length) = req then
      stunTxLoop env req fin rest
    else
      match parseTimestampFromCmsgs env ev.oob with
      | .error e => .error (.basic ("failed to get tx timestamp: " ++ e.message))
      | .ok t => .ok t

/-- The reply wait loop of `measureSTUNRTTKernel`: discard every
datagram that fails to parse as a STUN response or whose embedded
transaction ID differs from the probe's; on the first match, decode the
rx timestamp from ancillary data and return `rxAt.Sub(txAt)`. -/
def stunRxLoop (env : Env) (txID : TxID) (txAt : Time) (fin : GoError) :
    List RecvEvent → Except GoError Duration
  | [] => .error (.wrap "recvmsg error" fin)
  | ev :: rest =>
    match env.stunParseResponse ev.buf with
    | .error _ => stunRxLoop env txID txAt fin rest
    | .ok gotTxID =>
      if gotTxID ≠ txID then
        stunRxLoop env txID txAt fin rest
      else
        match parseTimestampFromCmsgs env ev.oob with
        | .error e => .error (.basic ("failed to get rx timestamp: " ++ e.message))
        | .ok rxAt => .ok (rxAt - txAt)

/-- The per-invocation inputs of `measureSTUNRTTKernel`: the fresh
transaction ID (`stun.NewTxID()`), the `Sendto` outcome, and the two
receive streams in the same shape as `ICMPInputs`. -/
structure STUNInputs where
  txID : TxID
  sendRes : Except GoError Unit
  errq : List RecvEvent
  errqFin : GoError
  rx : List RecvEvent
  rxFin : GoError

/-- Function `measureSTUNRTTKernel`: build the binding request for a fresh
transaction ID, send it (`sendto error` propagated with `%v`), obtain
the tx timestamp from the error-queue loop, then run the reply wait
loop. -/
def measureSTUNRTTKernel (env : Env) (inp : STUNInputs) : Except GoError Duration :=
  let req := env.stunRequest inp.txID
  match inp.sendRes with
  | .error e => .error (.basic ("sendto error: " ++ e.message))
  | .ok _ =>
    match stunTxLoop env req inp.errqFin inp.errq with
    | .error e => .error e
    | .ok txAt => stunRxLoop env inp.txID txAt inp.rxFin inp.rx

/-! Concrete sample environment, used by the witness theorems to
evaluate the loops on closed inputs. The codec fields are simple
invertible stand-ins for the external wire-format libraries. -/

/-- A toy type tag used by the sample ICMP codec. -/
def sampleEncodeType : ICMPType → List Nat
  | .v4 n => [0, n]
  | .v6 n => [1, n]

/-- Sample stand-in for `icmp.Message.Marshal`. -/
def sampleMarshal (m : Message) : Except GoError (List Nat) :=
  match m.body with
  | .echo e => .ok (sampleEncodeType m.type ++ [Int.toNat m.code, Int.toNat e.Seq] ++ e.Data)
  | .other => .ok (sampleEncodeType m.type ++ [Int.toNat m.code, 255])

/-- Sample stand-in for `icmp.ParseMessage`: inverse of `sampleMarshal`
on echo messages (a fourth byte of 255 denotes a non-echo body). -/
def sampleParseICMP (_proto : Nat) (buf : List Nat) : Except GoError Message :=
  match buf with
  | tv :: tn :: c :: sq :: rest =>
    .ok { type := if tv = 0 then .v4 tn else .v6 tn
          code := (c : Int)
          body := if sq = 255 then .other else .echo { ID := 0, Seq := (sq : Int), Data := rest } }
  | _ => .error (.basic "message too short")

/-- The sample environment: every ancillary buffer parses as a single
control message carrying the buffer as payload; STUN requests are the
transaction ID prefixed with a 1, and responses parse back the same
way. -/
def sampleEnv : Env where
  parseSocketControlMessage := fun oob =>
    .ok [{ level := SOL_SOCKET, type := SO_TIMESTAMPING_NEW, data := oob }]
  parseICMPMessage := sampleParseICMP
  marshalICMP := sampleMarshal
  stunRequest := fun t => 1 :: t
  stunParseResponse := fun buf =>
    match buf with
    | 1 :: rest => .ok rest
    | _ => .error (.basic "malformed response")

/-- A 16-byte sample ancillary payload: seconds 1700000000 and
nanoseconds 500000000, little-endian. -/
def sampleOob : List Nat :=
  [0, 241, 83, 101, 0, 0, 0, 0, 0, 101, 205, 29, 0, 0, 0, 0]

/-- A 16-byte sample ancillary payload: seconds 1700000000 and
nanoseconds 600000000, little-endian. -/
def sampleOob2 : List Nat :=
  [0, 241, 83, 101, 0, 0, 0, 0, 0, 70, 195, 35, 0, 0, 0, 0]

/-- A sample 12-byte STUN transaction ID. -/
def sampleTxID : TxID := [1, 2, 3, 4, 5, 6, 7, 8, 9, 10, 11, 12]

/-- The sample marshalling of the IPv4 echo request with sequence 7. -/
def sampleReqBuf : List Nat := [0, 8, 0, 7] ++ stunstampPayload

/-- A sample connection handle. -/
def sampleConn : Conn := ⟨3⟩

/-- UDP factory externals whose SetsockoptInt call fails. -/
def sampleUDPSockEnvFail : UDPSockEnv where
  socketRes := .ok sampleConn
  bindRes := .ok ()
  setsockoptInt := fun _ _ _ => .error (.basic "EPERM")

/-- ICMP factory externals whose SetsockoptInt call fails. -/
def sampleICMPSockEnvFail : ICMPSockEnv where
  socketRes := fun _ _ => .ok sampleConn
  setsockoptInt := fun _ _ _ => .error (.basic "EPERM")

/-- ICMP measurement inputs whose Sendto call fails. -/
def sampleICMPInputsSendFail : ICMPInputs where
  seq := 7
  txNow := 1000
  sendRes := .error (.basic "ENETUNREACH")
  errq := []
  errqFin := .basic "deadline"
  rx := []
  rxFin := .basic "deadline"

/-- STUN measurement inputs whose Sendto call fails. -/
def sampleSTUNInputsSendFail : STUNInputs where
  txID := sampleTxID
  sendRes := .error (.basic "ENETUNREACH")
  errq := []
  errqFin := .basic "deadline"
  rx := []
  rxFin := .basic "deadline"

/-- ICMP inputs for a successful kernel-timestamped run: one matching
looped-back transmit on the error queue (ancillary seconds/nanoseconds
1700000000/500000000) and one matching echo reply (1700000000/600000000). -/
def sampleKernelICMPInputs : ICMPInputs where
  seq := 7
  txNow := 1000
  sendRes := .ok ()
  errq := [{ buf := [0, 8, 0, 7] ++ stunstampPayload, oob := sampleOob, now := 1500 }]
  errqFin := .basic "deadline"
  rx := [{ buf := [0, 0, 0, 7] ++ stunstampPayload, oob := sampleOob2, now := 4000 }]
  rxFin := .basic "deadline"

/-- ICMP inputs for a successful userspace-timestamped run: the wall
clock is 1000 before the send and 4000 at the matching reply. -/
def sampleUserspaceICMPInputs : ICMPInputs where
  seq := 7
  txNow := 1000
  sendRes := .ok ()
  errq := []
  errqFin := .basic "deadline"
  rx := [{ buf := [0, 0, 0, 7] ++ stunstampPayload, oob := sampleOob2, now := 4000 }]
  rxFin := .basic "deadline"

/-- STUN inputs for a successful kernel-timestamped run. -/
def sampleSTUNInputsOk : STUNInputs where
  txID := sampleTxID
  sendRes := .ok ()
  errq := [{ buf := 1 :: sampleTxID, oob := sampleOob, now := 1500 }]
  errqFin := .basic "deadline"
  rx := [{ buf := 1 :: sampleTxID, oob := sampleOob2, now := 4000 }]
  rxFin := .basic "deadline"

/-! Theorems. -/

/-- Scanning control messages skips any prefix of non-matching ones. -/
theorem scanCmsgs_append_of_no_match (pre rest : List Cmsg)
    (h : ∀ m ∈ pre, ¬isTimestampCmsg m) :
    scanCmsgs (pre ++ rest) = scanCmsgs rest := by
  induction pre with
  | nil => rfl
  | cons m pre ih =>
    have hm : ¬isTimestampCmsg m := h m (List.mem_cons_self _ _)
    simp only [List.cons_append, scanCmsgs, if_neg hm]
    exact ih fun m' hm' => h m' (List.mem_cons_of_mem _ hm')

/-- Scanning a list with no matching control message fails. -/
theorem scanCmsgs_eq_error_of_no_match (msgs : List Cmsg)
    (h : ∀ m ∈ msgs, ¬isTimestampCmsg m) :
    scanCmsgs msgs = .error (.basic "failed to parse timestamp from cmsgs") := by
  simpa using scanCmsgs_append_of_no_match msgs [] h

/-- C6: getProtocolSupportInfo is a pure function returning exactly the
fixed capability table: STUN → (kernelTS, userspaceTS, stableConn) =
(true, true, true); HTTPS → (false, true, true); TCP → (true, false,
true); ICMP → (true, true, false). -/
theorem getProtocolSupportInfo_table :
    getProtocolSupportInfo .STUN =
      { kernelTS := true, userspaceTS := true, stableConn := true } ∧
    getProtocolSupportInfo .HTTPS =
      { kernelTS := false, userspaceTS := true, stableConn := true } ∧
    getProtocolSupportInfo .TCP =
      { kernelTS := true, userspaceTS := false, stableConn := true } ∧
    getProtocolSupportInfo .ICMP =
      { kernelTS := true, userspaceTS := true, stableConn := false } := by
  decide

/-- C4: when the ancillary buffer parses as control messages and the
first message with level SOL_SOCKET, type SO_TIMESTAMPING_NEW and at
least 16 payload bytes exists, parseTimestampFromCmsgs returns the
timestamp whose seconds are the first 8 payload bytes as a native-endian
signed 64-bit integer and whose nanoseconds are the next 8 payload bytes
read the same way; when no message matches, it returns the
"failed to parse timestamp from cmsgs" error instead of any fabricated
timestamp. -/
theorem parseTimestampFromCmsgs_spec :
    (∀ (env : Env) (oob : List Nat) (pre post : List Cmsg) (m : Cmsg),
      env.parseSocketControlMessage oob = .ok (pre ++ m :: post) →
      (∀ m' ∈ pre, ¬isTimestampCmsg m') →
      isTimestampCmsg m →
      parseTimestampFromCmsgs env oob =
        .ok (timeUnix (int64OfUint64 (nativeEndianUint64 (m.data.take 8)))
          (int64OfUint64 (nativeEndianUint64 ((m.data.drop 8).take 8))))) ∧
    (∀ (env : Env) (oob : List Nat) (msgs : List Cmsg),
      env.parseSocketControlMessage oob = .ok msgs →
      (∀ m' ∈ msgs, ¬isTimestampCmsg m') →
      parseTimestampFromCmsgs env oob =
        .error (.basic "failed to parse timestamp from cmsgs")) := by
  constructor
  · intro env oob pre post m hparse hpre hm
    unfold parseTimestampFromCmsgs
    rw [hparse]
    simp only [scanCmsgs_append_of_no_match pre _ hpre, scanCmsgs, if_pos hm,
      cmsgTimestamp]
  · intro env oob msgs hparse hnone
    unfold parseTimestampFromCmsgs
    rw [hparse]
    simp only [scanCmsgs_eq_error_of_no_match msgs hnone]

/-- C2: in the reply-wait loop of measureSTUNRTTKernel, a datagram that
fails to parse as a STUN response, or whose embedded transaction ID
differs from the probe's, is discarded and the wait continues on the
remaining receives; the first datagram that parses with the probe's
transaction ID terminates the wait (returning the decoded rx timestamp
minus the tx timestamp, or the decode failure). -/
theorem stunRxLoop_match_spec :
    (∀ (env : Env) (txID : TxID) (txAt : Time) (fin : GoError)
        (ev : RecvEvent) (rest : List RecvEvent),
      ((∃ e, env.stunParseResponse ev.buf = .error e) ∨
        (∃ got, env.stunParseResponse ev.buf = .ok got ∧ got ≠ txID)) →
      stunRxLoop env txID txAt fin (ev :: rest) = stunRxLoop env txID txAt fin rest) ∧
    (∀ (env : Env) (txID : TxID) (txAt : Time) (fin : GoError)
        (ev : RecvEvent) (rest : List RecvEvent),
      env.stunParseResponse ev.buf = .ok txID →
      stunRxLoop env txID txAt fin (ev :: rest) =
        match parseTimestampFromCmsgs env ev.oob with
        | .error e => .error (.basic ("failed to get rx timestamp: " ++ e.message))
        | .ok rxAt => .ok (rxAt - txAt)) := by
  constructor
  · rintro env txID txAt fin ev rest (⟨e, he⟩ | ⟨got, hgot, hne⟩)
    · simp only [stunRxLoop, he]
    · simp only [stunRxLoop, hgot, if_pos hne]
  · intro env txID txAt fin ev rest h
    simp only [stunRxLoop, h, ne_eq, not_true_eq_false, if_false]

/-- C5: in the transmit-confirmation loop of measureICMPRTT over the
error queue, a looped-back packet whose tail parses as an echo message
is accepted exactly when its sequence number, code and payload equal the
transmitted ones; the message-type comparison in the source compares
txLoopedMsg.Type against itself and never rejects, so the acceptance
direction here carries no hypothesis on the parsed message's type: an
echo of a different type with matching sequence, code and payload is
accepted. -/
theorem icmpTxLoop_confirmation_spec :
    (∀ (env : Env) (txBuf : List Nat) (txMsg : Message) (txBody : Echo)
        (fin : GoError) (ev : RecvEvent) (rest : List RecvEvent)
        (m : Message) (b : Echo),
      txBuf.length ≤ ev.buf.length →
      env.parseICMPMessage txMsg.type.protocol
        (ev.buf.drop (ev.buf.length - txBuf.length)) = .ok m →
      m.body = .echo b →
      b.Seq = txBody.Seq → m.code = txMsg.code → b.Data = txBody.Data →
      icmpTxLoop env txBuf txMsg txBody fin (ev :: rest) =
        match parseTimestampFromCmsgs env ev.oob with
        | .error e => .error (.basic ("failed to get tx timestamp: " ++ e.message))
        | .ok t => .ok t) ∧
    (∀ (env : Env) (txBuf : List Nat) (txMsg : Message) (txBody : Echo)
        (fin : GoError) (ev : RecvEvent) (rest : List RecvEvent)
        (m : Message) (b : Echo),
      txBuf.length ≤ ev.buf.length →
      env.parseICMPMessage txMsg.type.protocol
        (ev.buf.drop (ev.buf.length - txBuf.length)) = .ok m →
      m.body = .echo b →
      (b.Seq ≠ txBody.Seq ∨ m.code ≠ txMsg.code ∨ b.Data ≠ txBody.Data) →
      icmpTxLoop env txBuf txMsg txBody fin (ev :: rest) =
        icmpTxLoop env txBuf txMsg txBody fin rest) := by
  constructor
  · intro env txBuf txMsg txBody fin ev rest m b hlen hparse hbody hseq hcode hdata
    simp only [icmpTxLoop, if_neg (Nat.not_lt.mpr hlen), hparse, hbody, hseq,
      hcode, hdata, ne_eq, not_true_eq_false, false_or, or_self, if_false]
  · intro env txBuf txMsg txBody fin ev rest m b hlen hparse hbody hmis
    have hcond : b.Seq ≠ txBody.Seq ∨ m.code ≠ txMsg.code ∨
        m.type ≠ m.type ∨ ¬b.Data = txBody.Data := by
      rcases hmis with h | h | h
      · exact Or.inl h
      · exact Or.inr (Or.inl h)
      · exact Or.inr (Or.inr (Or.inr h))
    simp only [icmpTxLoop, if_neg (Nat.not_lt.mpr hlen), hparse, hbody,
      if_pos hcond]


/-- One discard step of the reply-wait loop of measureICMPRTT: if the
the parsed datagram (when it parses at all) fails any of the matching
checks, the loop continues on the remaining receives. -/
theorem icmpRxLoop_cons_skip
    (env : Env) (source : timestampSource) (txMsg : Message) (txBody : Echo)
    (txAt : Time) (fin : GoError) (ev : RecvEvent) (rest : List RecvEvent)
    (h : ∀ rxMsg, env.parseICMPMessage txMsg.type.protocol ev.buf = .ok rxMsg →
      (if txMsg.type = ipv4.ICMPTypeEcho then rxMsg.type ≠ ipv4.ICMPTypeEchoReply
        else rxMsg.type ≠ ipv6.ICMPTypeEchoReply) ∨
      rxMsg.code ≠ txMsg.code ∨
      rxMsg.body = .other ∨
      (∃ b, rxMsg.body = .echo b ∧ (b.Seq ≠ txBody.Seq ∨ ¬b.Data = txBody.Data))) :
    icmpRxLoop env source txMsg txBody txAt fin (ev :: rest) =
      icmpRxLoop env source txMsg txBody txAt fin rest := by
  cases hp : env.parseICMPMessage txMsg.type.protocol ev.buf with
  | error e => simp only [icmpRxLoop, hp]
  | ok rxMsg =>
    have hm := h rxMsg hp
    simp only [icmpRxLoop, hp]
    by_cases h1 : (if txMsg.type = ipv4.ICMPTypeEcho
        then rxMsg.type ≠ ipv4.ICMPTypeEchoReply
        else rxMsg.type ≠ ipv6.ICMPTypeEchoReply)
    · rw [if_pos h1]
    · rw [if_neg h1]
      by_cases h2 : rxMsg.code ≠ txMsg.code
      · rw [if_pos h2]
      · rw [if_neg h2]
        cases hb : rxMsg.body with
        | other => rfl
        | echo b =>
          have h4 : b.Seq ≠ txBody.Seq ∨ ¬b.Data = txBody.Data := by
            rcases hm with hm | hm | hm | ⟨b', hb', hmm⟩
            · exact absurd hm h1
            · exact absurd hm h2
            · rw [hb] at hm
              simp at hm
            · rw [hb] at hb'
              injection hb' with hbb
              subst hbb
              exact hmm
          exact if_pos h4

/-- C1: in the reply-wait loop of measureICMPRTT, a received datagram
that fails to parse as an ICMP message, or whose type is not the
echo-reply counterpart of the transmitted type, or whose code differs
from the transmitted code, or whose body is not an echo body, or whose
sequence number differs, or whose payload differs from the fingerprint
payload, is discarded and the wait continues on the remaining receives;
the first datagram matching on all fields terminates the wait, returning
the receive timestamp minus the transmit timestamp (the wall clock of
the read for the userspace source, the decoded ancillary timestamp for
the kernel source). -/
theorem icmpRxLoop_match_spec :
    (∀ (env : Env) (source : timestampSource) (dstIs4 : Bool) (seq : Int)
        (txAt : Time) (fin : GoError) (ev : RecvEvent) (rest : List RecvEvent),
      ((∃ e, env.parseICMPMessage (icmpTxMessage dstIs4 seq).type.protocol ev.buf =
          .error e) ∨
        (∃ rxMsg, env.parseICMPMessage (icmpTxMessage dstIs4 seq).type.protocol ev.buf =
            .ok rxMsg ∧
          (rxMsg.type ≠ (if dstIs4 then ipv4.ICMPTypeEchoReply else ipv6.ICMPTypeEchoReply) ∨
            rxMsg.code ≠ (icmpTxMessage dstIs4 seq).code ∨
            rxMsg.body = .other ∨
            (∃ b, rxMsg.body = .echo b ∧ (b.Seq ≠ seq ∨ b.Data ≠ stunstampPayload))))) →
      icmpRxLoop env source (icmpTxMessage dstIs4 seq) (icmpEchoBody seq) txAt fin
          (ev :: rest) =
        icmpRxLoop env source (icmpTxMessage dstIs4 seq) (icmpEchoBody seq) txAt fin
          rest) ∧
    (∀ (env : Env) (source : timestampSource) (dstIs4 : Bool) (seq : Int)
        (txAt : Time) (fin : GoError) (ev : RecvEvent) (rest : List RecvEvent)
        (rxMsg : Message) (b : Echo),
      env.parseICMPMessage (icmpTxMessage dstIs4 seq).type.protocol ev.buf = .ok rxMsg →
      rxMsg.type = (if dstIs4 then ipv4.ICMPTypeEchoReply else ipv6.ICMPTypeEchoReply) →
      rxMsg.code = (icmpTxMessage dstIs4 seq).code →
      rxMsg.body = .echo b →
      b.Seq = seq → b.Data = stunstampPayload →
      icmpRxLoop env source (icmpTxMessage dstIs4 seq) (icmpEchoBody seq) txAt fin
          (ev :: rest) =
        (if source = .kernel then
          match parseTimestampFromCmsgs env ev.oob with
          | .error e => .error (.basic ("failed to get rx timestamp: " ++ e.message))
          | .ok t => .ok (t - txAt)
        else
          .ok (ev.now - txAt))) := by
  constructor
  · rintro env source dstIs4 seq txAt fin ev rest
      (⟨e, he⟩ | ⟨rxMsg, hparse, hmis⟩)
    · simp only [icmpRxLoop, he]
    · refine icmpRxLoop_cons_skip env source _ _ txAt fin ev rest ?_
      intro rxMsg' hp'
      rw [hparse] at hp'
      injection hp' with hpe
      subst hpe
      rcases hmis with h | h | h | ⟨b, hb, hbm⟩
      · refine Or.inl ?_
        cases dstIs4 <;>
          simpa [icmpTxMessage, ipv4.ICMPTypeEcho, ipv6.ICMPTypeEchoRequest] using h
      · exact Or.inr (Or.inl h)
      · exact Or.inr (Or.inr (Or.inl h))
      · refine Or.inr (Or.inr (Or.inr ⟨b, hb, ?_⟩))
        simpa [icmpEchoBody] using hbm
  · intro env source dstIs4 seq txAt fin ev rest rxMsg b hparse htype hcode hbody hseq hdata
    cases dstIs4 <;>
      simp_all [icmpRxLoop, icmpTxMessage, icmpEchoBody, ipv4.ICMPTypeEcho,
        ipv6.ICMPTypeEchoRequest, ipv4.ICMPTypeEchoReply, ipv6.ICMPTypeEchoReply]



/-- Lifting an existence witness over a list to the list with one more
receive event in front. -/
theorem exists_mem_cons_of {α : Type} {p : α → Prop} {a : α} {l : List α}
    (h : ∃ x ∈ l, p x) : ∃ x ∈ a :: l, p x := by
  rcases h with ⟨x, hx, hp⟩
  exact ⟨x, List.mem_cons_of_mem _ hx, hp⟩

/-- A transmit timestamp produced by the error-queue loop of
measureICMPRTT is always one decoded from some received event's
ancillary data. -/
theorem icmpTxLoop_ok_inv (env : Env) (txBuf : List Nat) (txMsg : Message)
    (txBody : Echo) (fin : GoError) (evs : List RecvEvent) (t : Time)
    (h : icmpTxLoop env txBuf txMsg txBody fin evs = .ok t) :
    ∃ ev ∈ evs, parseTimestampFromCmsgs env ev.oob = .ok t := by
  induction evs with
  | nil => simp [icmpTxLoop] at h
  | cons ev rest ih =>
    simp only [icmpTxLoop] at h
    repeat' split at h
    all_goals
      first
      | (rename_i t' hts
         injection h with h'
         subst h'
         exact ⟨ev, List.mem_cons_self _ _, hts⟩)
      | exact exists_mem_cons_of (ih h)
      | exact Except.noConfusion h

/-- A successful result of the ICMP reply-wait loop with the kernel
timestamp source is a difference of a timestamp decoded from some
received event's ancillary data and the transmit timestamp. -/
theorem icmpRxLoop_ok_inv_kernel (env : Env) (txMsg : Message) (txBody : Echo)
    (txAt : Time) (fin : GoError) (evs : List RecvEvent) (rtt : Duration)
    (h : icmpRxLoop env .kernel txMsg txBody txAt fin evs = .ok rtt) :
    ∃ ev ∈ evs, ∃ rts, parseTimestampFromCmsgs env ev.oob = .ok rts ∧
      rtt = rts - txAt := by
  induction evs with
  | nil => simp [icmpRxLoop] at h
  | cons ev rest ih =>
    simp only [icmpRxLoop] at h
    repeat' split at h
    all_goals
      first
      | (rename_i t' hts
         injection h with h'
         exact ⟨ev, List.mem_cons_self _ _, t', hts, h'.symm⟩)
      | exact exists_mem_cons_of (ih h)
      | exact Except.noConfusion h
      | simp_all

/-- A successful result of the ICMP reply-wait loop with the userspace
timestamp source is a difference of some received event's wall-clock
sample and the transmit timestamp. -/
theorem icmpRxLoop_ok_inv_userspace (env : Env) (txMsg : Message) (txBody : Echo)
    (txAt : Time) (fin : GoError) (evs : List RecvEvent) (rtt : Duration)
    (h : icmpRxLoop env .userspace txMsg txBody txAt fin evs = .ok rtt) :
    ∃ ev ∈ evs, rtt = ev.now - txAt := by
  induction evs with
  | nil => simp [icmpRxLoop] at h
  | cons ev rest ih =>
    simp only [icmpRxLoop] at h
    repeat' split at h
    all_goals
      first
      | (injection h with h'
         exact ⟨ev, List.mem_cons_self _ _, h'.symm⟩)
      | exact exists_mem_cons_of (ih h)
      | exact Except.noConfusion h
      | simp_all

/-- A transmit timestamp produced by the error-queue loop of
measureSTUNRTTKernel is always one decoded from some received event's
ancillary data. -/
theorem stunTxLoop_ok_inv (env : Env) (req : List Nat) (fin : GoError)
    (evs : List RecvEvent) (t : Time)
    (h : stunTxLoop env req fin evs = .ok t) :
    ∃ ev ∈ evs, parseTimestampFromCmsgs env ev.oob = .ok t := by
  induction evs with
  | nil => simp [stunTxLoop] at h
  | cons ev rest ih =>
    simp only [stunTxLoop] at h
    repeat' split at h
    all_goals
      first
      | (rename_i t' hts
         injection h with h'
         subst h'
         exact ⟨ev, List.mem_cons_self _ _, hts⟩)
      | exact exists_mem_cons_of (ih h)
      | exact Except.noConfusion h

/-- A successful result of the STUN reply-wait loop is a difference of a
timestamp decoded from some received event's ancillary data and the
transmit timestamp. -/
theorem stunRxLoop_ok_inv (env : Env) (txID : TxID) (txAt : Time)
    (fin : GoError) (evs : List RecvEvent) (rtt : Duration)
    (h : stunRxLoop env txID txAt fin evs = .ok rtt) :
    ∃ ev ∈ evs, ∃ rts, parseTimestampFromCmsgs env ev.oob = .ok rts ∧
      rtt = rts - txAt := by
  induction evs with
  | nil => simp [stunRxLoop] at h
  | cons ev rest ih =>
    simp only [stunRxLoop] at h
    repeat' split at h
    all_goals
      first
      | (rename_i t' hts
         injection h with h'
         exact ⟨ev, List.mem_cons_self _ _, t', hts, h'.symm⟩)
      | exact exists_mem_cons_of (ih h)
      | exact Except.noConfusion h


/-- C3: every successful measurement returns an RTT that is a receive
timestamp minus a transmit timestamp from the same clock source. With
the kernel source (ICMP kernel path and the STUN kernel function), both
timestamps are decoded from socket control messages — the transmit one
from an error-queue event, the receive one from an ordinary receive
event; with the userspace source, both are wall-clock samples — the
transmit one taken just before the send call, the receive one taken
right after the matching receive. Kernel- and userspace-sourced
timestamps are never combined. -/
theorem measurement_same_clock_source :
    (∀ (env : Env) (dstIs4 : Bool) (inp : ICMPInputs) (rtt : Duration),
      measureICMPRTT env .kernel dstIs4 inp = .ok rtt →
      ∃ txEv ∈ inp.errq, ∃ rxEv ∈ inp.rx, ∃ tts rts,
        parseTimestampFromCmsgs env txEv.oob = .ok tts ∧
        parseTimestampFromCmsgs env rxEv.oob = .ok rts ∧
        rtt = rts - tts) ∧
    (∀ (env : Env) (dstIs4 : Bool) (inp : ICMPInputs) (rtt : Duration),
      measureICMPRTT env .userspace dstIs4 inp = .ok rtt →
      ∃ rxEv ∈ inp.rx, rtt = rxEv.now - inp.txNow) ∧
    (∀ (env : Env) (inp : STUNInputs) (rtt : Duration),
      measureSTUNRTTKernel env inp = .ok rtt →
      ∃ txEv ∈ inp.errq, ∃ rxEv ∈ inp.rx, ∃ tts rts,
        parseTimestampFromCmsgs env txEv.oob = .ok tts ∧
        parseTimestampFromCmsgs env rxEv.oob = .ok rts ∧
        rtt = rts - tts) := by
  refine ⟨?_, ?_, ?_⟩
  · intro env dstIs4 inp rtt h
    simp only [measureICMPRTT] at h
    repeat' split at h
    all_goals
      first
      | exact Except.noConfusion h
      | (rename_i txAt htx
         rcases icmpTxLoop_ok_inv _ _ _ _ _ _ _ htx with ⟨txEv, htmem, htp⟩
         rcases icmpRxLoop_ok_inv_kernel _ _ _ _ _ _ _ h with
          ⟨rxEv, hrmem, rts, hrp, hrtt⟩
         exact ⟨txEv, htmem, rxEv, hrmem, txAt, rts, htp, hrp, hrtt⟩)
  · intro env dstIs4 inp rtt h
    simp only [measureICMPRTT] at h
    repeat' split at h
    all_goals
      first
      | exact Except.noConfusion h
      | (rename_i t' ht
         rw [if_neg (by decide :
           ¬timestampSource.userspace = timestampSource.kernel)] at ht
         injection ht with ht'
         subst ht'
         exact icmpRxLoop_ok_inv_userspace _ _ _ _ _ _ _ h)
  · intro env inp rtt h
    simp only [measureSTUNRTTKernel] at h
    repeat' split at h
    all_goals
      first
      | exact Except.noConfusion h
      | (rename_i txAt htx
         rcases stunTxLoop_ok_inv _ _ _ _ _ htx with ⟨txEv, htmem, htp⟩
         rcases stunRxLoop_ok_inv _ _ _ _ _ _ h with ⟨rxEv, hrmem, rts, hrp, hrtt⟩
         exact ⟨txEv, htmem, rxEv, hrmem, txAt, rts, htp, hrp, hrtt⟩)


/-- C7: both connection factories fail loudly when the kernel
timestamping socket option cannot be set. When socket creation and bind
succeed but SetsockoptInt(SOL_SOCKET, SO_TIMESTAMPING_NEW,
timestampingFlags) fails, getUDPConnKernelTimestamp returns that error
(non-nil); likewise getICMPConn with the kernel timestamp source returns
that error after a successful socket creation. Neither returns a
success (nil-error) result without the option enabled. -/
theorem conn_factories_fail_loudly :
    (∀ (ext : UDPSockEnv) (c : Conn) (e : GoError),
      ext.socketRes = .ok c →
      ext.bindRes = .ok () →
      ext.setsockoptInt SOL_SOCKET SO_TIMESTAMPING_NEW timestampingFlags = .error e →
      (getUDPConnKernelTimestamp ext).2 = some e) ∧
    (∀ (ext : ICMPSockEnv) (forDstIs6 : Bool) (c : Conn) (e : GoError),
      ext.socketRes (if forDstIs6 then AF_INET6 else AF_INET)
        (if forDstIs6 then IPPROTO_ICMPV6 else IPPROTO_ICMP) = .ok c →
      ext.setsockoptInt SOL_SOCKET SO_TIMESTAMPING_NEW timestampingFlags = .error e →
      (getICMPConn ext forDstIs6 .kernel).2 = some e) := by
  constructor
  · intro ext c e hsock hbind hopt
    simp [getUDPConnKernelTimestamp, hsock, hbind, hopt]
  · intro ext forDstIs6 c e hsock hopt
    simp [getICMPConn, hsock, hopt]

/-- C10: when getICMPConn is asked for kernel timestamping, socket
creation succeeds and the option-set fails, it returns the non-nil
connection handle together with the non-nil error; on every failure path
of getUDPConnKernelTimestamp the returned connection is nil; and with a
userspace timestamp source getICMPConn never consults the option-set
outcome, returning the connection and a nil error whenever socket
creation succeeds. -/
theorem conn_factories_return_shape :
    (∀ (ext : ICMPSockEnv) (forDstIs6 : Bool) (c : Conn) (e : GoError),
      ext.socketRes (if forDstIs6 then AF_INET6 else AF_INET)
        (if forDstIs6 then IPPROTO_ICMPV6 else IPPROTO_ICMP) = .ok c →
      ext.setsockoptInt SOL_SOCKET SO_TIMESTAMPING_NEW timestampingFlags = .error e →
      getICMPConn ext forDstIs6 .kernel = (some c, some e)) ∧
    (∀ ext : UDPSockEnv,
      (getUDPConnKernelTimestamp ext).2 ≠ none →
      (getUDPConnKernelTimestamp ext).1 = none) ∧
    (∀ (ext : ICMPSockEnv) (forDstIs6 : Bool) (c : Conn),
      ext.socketRes (if forDstIs6 then AF_INET6 else AF_INET)
        (if forDstIs6 then IPPROTO_ICMPV6 else IPPROTO_ICMP) = .ok c →
      getICMPConn ext forDstIs6 .userspace = (some c, none)) := by
  refine ⟨?_, ?_, ?_⟩
  · intro ext forDstIs6 c e hsock hopt
    simp [getICMPConn, hsock, hopt]
  · intro ext hne
    unfold getUDPConnKernelTimestamp
    cases hs : ext.socketRes with
    | error err => rfl
    | ok sconn =>
      cases hb : ext.bindRes with
      | error err => rfl
      | ok u =>
        cases ho : ext.setsockoptInt SOL_SOCKET SO_TIMESTAMPING_NEW
            timestampingFlags with
        | error err => rfl
        | ok u' =>
          exfalso
          apply hne
          unfold getUDPConnKernelTimestamp
          rw [hs, hb, ho]
  · intro ext forDstIs6 c hsock
    simp [getICMPConn, hsock]

/-- C8: in measureICMPRTT and measureSTUNRTTKernel, a send failure and
an error-queue receive failure become non-chaining errors (Unwrap is
nil), while a failure of the ordinary reply-wait receive — including
deadline expiry, the receive error reached when no listed receive
matched — is propagated wrapped, so the underlying error remains
inspectable by Unwrap. -/
theorem error_wrapping_policy :
    (∀ (env : Env) (source : timestampSource) (dstIs4 : Bool)
        (inp : ICMPInputs) (txBuf : List Nat) (e : GoError),
      env.marshalICMP (icmpTxMessage dstIs4 inp.seq) = .ok txBuf →
      inp.sendRes = .error e →
      ∃ err, measureICMPRTT env source dstIs4 inp = .error err ∧
        err.unwrap = none) ∧
    (∀ (env : Env) (txBuf : List Nat) (txMsg : Message) (txBody : Echo)
        (fin : GoError),
      icmpTxLoop env txBuf txMsg txBody fin [] =
        .error (.basic ("recvmsg (MSG_ERRQUEUE) error: " ++ fin.message)) ∧
      (GoError.basic ("recvmsg (MSG_ERRQUEUE) error: " ++ fin.message)).unwrap =
        none) ∧
    (∀ (env : Env) (source : timestampSource) (txMsg : Message) (txBody : Echo)
        (txAt : Time) (fin : GoError),
      icmpRxLoop env source txMsg txBody txAt fin [] =
        .error (.wrap "recvmsg error" fin) ∧
      (GoError.wrap "recvmsg error" fin).unwrap = some fin) ∧
    (∀ (env : Env) (inp : STUNInputs) (e : GoError),
      inp.sendRes = .error e →
      ∃ err, measureSTUNRTTKernel env inp = .error err ∧ err.unwrap = none) ∧
    (∀ (env : Env) (req : List Nat) (fin : GoError),
      stunTxLoop env req fin [] =
        .error (.basic ("recvmsg (MSG_ERRQUEUE) error: " ++ fin.message)) ∧
      (GoError.basic ("recvmsg (MSG_ERRQUEUE) error: " ++ fin.message)).unwrap =
        none) ∧
    (∀ (env : Env) (txID : TxID) (txAt : Time) (fin : GoError),
      stunRxLoop env txID txAt fin [] =
        .error (.wrap "recvmsg error" fin) ∧
      (GoError.wrap "recvmsg error" fin).unwrap = some fin) := by
  refine ⟨?_, ?_, ?_, ?_, ?_, ?_⟩
  · intro env source dstIs4 inp txBuf e hmar hsend
    refine ⟨.basic ("sendto error: " ++ e.message), ?_, rfl⟩
    simp only [measureICMPRTT, hmar, hsend]
  · intro env txBuf txMsg txBody fin
    exact ⟨rfl, rfl⟩
  · intro env source txMsg txBody txAt fin
    exact ⟨rfl, rfl⟩
  · intro env inp e hsend
    refine ⟨.basic ("sendto error: " ++ e.message), ?_, rfl⟩
    simp only [measureSTUNRTTKernel, hsend]
  · intro env req fin
    exact ⟨rfl, rfl⟩
  · intro env txID txAt fin
    exact ⟨rfl, rfl⟩

/-- C9: the echo request transmitted by measureICMPRTT carries
identifier 0, the freshly generated random sequence number — which,
under the contract of rand.Int32N(math.MaxUint16) (a value in
[0, 65534]), always lies in the range [0, 65535] — the fixed payload
that is exactly the ASCII bytes of "stunstamp", and the echo-request
message type of the destination's address family (ICMPv4 echo request
for an IPv4 destination, ICMPv6 echo request otherwise). -/
theorem icmpTxMessage_fields (dstIs4 : Bool) (seq : Int)
    (h : 0 ≤ seq ∧ seq < 65535) :
    (icmpTxMessage dstIs4 seq).body =
      .echo { ID := 0, Seq := seq, Data := stunstampPayload } ∧
    0 ≤ seq ∧ seq ≤ 65535 ∧
    stunstampPayload = "stunstamp".toList.map Char.toNat ∧
    (icmpTxMessage dstIs4 seq).type =
      (if dstIs4 then ipv4.ICMPTypeEcho else ipv6.ICMPTypeEchoRequest) := by
  refine ⟨rfl, h.1, le_of_lt (lt_of_lt_of_le h.2 (by norm_num)), by decide, rfl⟩

/-- Witness for C1: a reply with the wrong sequence number is skipped
and the following fully matching reply produces the wall-clock
difference 4000 - 1000. -/
theorem icmpRxLoop_match_spec_witness :
    icmpRxLoop sampleEnv .userspace (icmpTxMessage true 7) (icmpEchoBody 7) 1000
        (.basic "deadline")
        [{ buf := [0, 0, 0, 9] ++ stunstampPayload, oob := sampleOob, now := 4001 },
          { buf := [0, 0, 0, 7] ++ stunstampPayload, oob := sampleOob2, now := 4000 }] =
      .ok 3000 := by
  rw [icmpRxLoop_match_spec.1 sampleEnv .userspace true 7 1000 (.basic "deadline")
      { buf := [0, 0, 0, 9] ++ stunstampPayload, oob := sampleOob, now := 4001 }
      [{ buf := [0, 0, 0, 7] ++ stunstampPayload, oob := sampleOob2, now := 4000 }]
      (Or.inr ⟨Message.mk (.v4 0) 0 (.echo (Echo.mk 0 9 stunstampPayload)), rfl,
        Or.inr (Or.inr (Or.inr ⟨Echo.mk 0 9 stunstampPayload, rfl,
          Or.inl (by decide)⟩))⟩),
    icmpRxLoop_match_spec.2 sampleEnv .userspace true 7 1000 (.basic "deadline")
      { buf := [0, 0, 0, 7] ++ stunstampPayload, oob := sampleOob2, now := 4000 } []
      (Message.mk (.v4 0) 0 (.echo (Echo.mk 0 7 stunstampPayload)))
      (Echo.mk 0 7 stunstampPayload) rfl rfl rfl rfl rfl rfl]
  decide

/-- Witness for C2: a syntactically valid response with a foreign
transaction ID is skipped and the following response with the probe's
transaction ID terminates the wait with the decoded timestamp minus the
transmit timestamp. -/
theorem stunRxLoop_match_spec_witness :
    stunRxLoop sampleEnv sampleTxID 5 (.basic "deadline")
        [{ buf := 1 :: [9, 9, 9, 9, 9, 9, 9, 9, 9, 9, 9, 9], oob := sampleOob,
            now := 3001 },
          { buf := 1 :: sampleTxID, oob := sampleOob, now := 3000 }] =
      .ok (1700000000500000000 - 5) := by
  rw [stunRxLoop_match_spec.1 sampleEnv sampleTxID 5 (.basic "deadline")
      { buf := 1 :: [9, 9, 9, 9, 9, 9, 9, 9, 9, 9, 9, 9], oob := sampleOob,
        now := 3001 }
      [{ buf := 1 :: sampleTxID, oob := sampleOob, now := 3000 }]
      (Or.inr ⟨[9, 9, 9, 9, 9, 9, 9, 9, 9, 9, 9, 9], rfl, by decide⟩),
    stunRxLoop_match_spec.2 sampleEnv sampleTxID 5 (.basic "deadline")
      { buf := 1 :: sampleTxID, oob := sampleOob, now := 3000 } [] rfl]
  decide

/-- Witness for C3: the kernel ICMP run yields 100000000 = rx − tx with
both timestamps decoded from ancillary data; the userspace run yields
3000 = 4000 − 1000 from wall-clock samples; the STUN run yields
100000000 from decoded ancillary data. -/
theorem measurement_same_clock_source_witness :
    (∃ txEv ∈ sampleKernelICMPInputs.errq, ∃ rxEv ∈ sampleKernelICMPInputs.rx,
      ∃ tts rts, parseTimestampFromCmsgs sampleEnv txEv.oob = .ok tts ∧
        parseTimestampFromCmsgs sampleEnv rxEv.oob = .ok rts ∧
        (100000000 : Duration) = rts - tts) ∧
    (∃ rxEv ∈ sampleUserspaceICMPInputs.rx,
      (3000 : Duration) = rxEv.now - sampleUserspaceICMPInputs.txNow) ∧
    (∃ txEv ∈ sampleSTUNInputsOk.errq, ∃ rxEv ∈ sampleSTUNInputsOk.rx,
      ∃ tts rts, parseTimestampFromCmsgs sampleEnv txEv.oob = .ok tts ∧
        parseTimestampFromCmsgs sampleEnv rxEv.oob = .ok rts ∧
        (100000000 : Duration) = rts - tts) :=
  ⟨measurement_same_clock_source.1 sampleEnv true sampleKernelICMPInputs
      100000000 (by decide),
    measurement_same_clock_source.2.1 sampleEnv true sampleUserspaceICMPInputs
      3000 (by decide),
    measurement_same_clock_source.2.2 sampleEnv sampleSTUNInputsOk
      100000000 (by decide)⟩

/-- Witness for C4: the sample ancillary payload decodes to the instant
with seconds 1700000000 and nanoseconds 500000000, and a buffer whose
only control-message payload is too short fails to decode. -/
theorem parseTimestampFromCmsgs_spec_witness :
    parseTimestampFromCmsgs sampleEnv sampleOob = .ok (timeUnix 1700000000 500000000) ∧
    parseTimestampFromCmsgs sampleEnv [7] =
      .error (.basic "failed to parse timestamp from cmsgs") := by
  constructor
  · have h := parseTimestampFromCmsgs_spec.1 sampleEnv sampleOob [] []
      { level := SOL_SOCKET, type := SO_TIMESTAMPING_NEW, data := sampleOob }
      rfl (by simp) (by decide)
    rw [h]
    decide
  · exact parseTimestampFromCmsgs_spec.2 sampleEnv [7] _ rfl (by decide)

/-- Witness for C5: a looped echo parsing with a type (v6 129) different
from the transmitted type (v4 8) but matching sequence, code and payload
is accepted, and one with a mismatched sequence is skipped into the
deadline error. -/
theorem icmpTxLoop_confirmation_spec_witness :
    icmpTxLoop sampleEnv sampleReqBuf (icmpTxMessage true 7) (icmpEchoBody 7)
        (.basic "deadline")
        [{ buf := [1, 129, 0, 7] ++ stunstampPayload, oob := sampleOob, now := 2000 }] =
      .ok 1700000000500000000 ∧
    (icmpTxMessage true 7).type ≠ ICMPType.v6 129 ∧
    icmpTxLoop sampleEnv sampleReqBuf (icmpTxMessage true 7) (icmpEchoBody 7)
        (.basic "deadline")
        [{ buf := [0, 0, 0, 9] ++ stunstampPayload, oob := sampleOob, now := 2001 }] =
      .error (.basic "recvmsg (MSG_ERRQUEUE) error: deadline") := by
  refine ⟨?_, by decide, ?_⟩
  · rw [icmpTxLoop_confirmation_spec.1 sampleEnv sampleReqBuf (icmpTxMessage true 7)
      (icmpEchoBody 7) (.basic "deadline")
      { buf := [1, 129, 0, 7] ++ stunstampPayload, oob := sampleOob, now := 2000 } []
      (Message.mk (.v6 129) 0 (.echo (Echo.mk 0 7 stunstampPayload)))
      (Echo.mk 0 7 stunstampPayload)
      (by decide) rfl rfl rfl rfl rfl]
    decide
  · rw [icmpTxLoop_confirmation_spec.2 sampleEnv sampleReqBuf (icmpTxMessage true 7)
      (icmpEchoBody 7) (.basic "deadline")
      { buf := [0, 0, 0, 9] ++ stunstampPayload, oob := sampleOob, now := 2001 } []
      (Message.mk (.v4 0) 0 (.echo (Echo.mk 0 9 stunstampPayload)))
      (Echo.mk 0 9 stunstampPayload)
      (by decide) rfl rfl (Or.inl (by decide))]
    decide

/-- Witness for C7: with socket creation and bind succeeding and the
option-set failing with EPERM, both factories surface that error. -/
theorem conn_factories_fail_loudly_witness :
    (getUDPConnKernelTimestamp sampleUDPSockEnvFail).2 = some (.basic "EPERM") ∧
    (getICMPConn sampleICMPSockEnvFail false .kernel).2 = some (.basic "EPERM") :=
  ⟨conn_factories_fail_loudly.1 sampleUDPSockEnvFail sampleConn _ rfl rfl rfl,
    conn_factories_fail_loudly.2 sampleICMPSockEnvFail false sampleConn _ rfl rfl⟩

/-- Witness for C8: the send failures surface unwrapped errors, the
empty receive streams surface the deadline error unwrapped on the error
queue and wrapped on the ordinary receive path. -/
theorem error_wrapping_policy_witness :
    (∃ err, measureICMPRTT sampleEnv .kernel true sampleICMPInputsSendFail =
      .error err ∧ err.unwrap = none) ∧
    (∃ err, measureSTUNRTTKernel sampleEnv sampleSTUNInputsSendFail = .error err ∧
      err.unwrap = none) ∧
    icmpTxLoop sampleEnv sampleReqBuf (icmpTxMessage true 7) (icmpEchoBody 7)
        (.basic "deadline") [] =
      .error (.basic ("recvmsg (MSG_ERRQUEUE) error: " ++
        (GoError.basic "deadline").message)) ∧
    icmpRxLoop sampleEnv .kernel (icmpTxMessage true 7) (icmpEchoBody 7) 1000
        (.basic "deadline") [] = .error (.wrap "recvmsg error" (.basic "deadline")) ∧
    stunTxLoop sampleEnv (1 :: sampleTxID) (.basic "deadline") [] =
      .error (.basic ("recvmsg (MSG_ERRQUEUE) error: " ++
        (GoError.basic "deadline").message)) ∧
    stunRxLoop sampleEnv sampleTxID 1000 (.basic "deadline") [] =
      .error (.wrap "recvmsg error" (.basic "deadline")) :=
  ⟨error_wrapping_policy.1 sampleEnv .kernel true sampleICMPInputsSendFail _ _ rfl rfl,
    error_wrapping_policy.2.2.2.1 sampleEnv sampleSTUNInputsSendFail _ rfl,
    (error_wrapping_policy.2.1 sampleEnv sampleReqBuf (icmpTxMessage true 7)
      (icmpEchoBody 7) (.basic "deadline")).1,
    (error_wrapping_policy.2.2.1 sampleEnv .kernel (icmpTxMessage true 7)
      (icmpEchoBody 7) 1000 (.basic "deadline")).1,
    (error_wrapping_policy.2.2.2.2.1 sampleEnv (1 :: sampleTxID)
      (.basic "deadline")).1,
    (error_wrapping_policy.2.2.2.2.2 sampleEnv sampleTxID 1000
      (.basic "deadline")).1⟩

/-- Witness for C9: with the random value 7 (in the range produced by
rand.Int32N(65535)), the transmitted message has identifier 0, sequence
7 within [0, 65535], the ASCII "stunstamp" payload and the IPv4
echo-request type. -/
theorem icmpTxMessage_fields_witness :
    (0 ≤ (7 : Int) ∧ (7 : Int) < 65535) ∧
    ((icmpTxMessage true 7).body =
      .echo { ID := 0, Seq := 7, Data := stunstampPayload } ∧
      0 ≤ (7 : Int) ∧ (7 : Int) ≤ 65535 ∧
      stunstampPayload = "stunstamp".toList.map Char.toNat ∧
      (icmpTxMessage true 7).type =
        (if true then ipv4.ICMPTypeEcho else ipv6.ICMPTypeEchoRequest)) :=
  ⟨by decide, icmpTxMessage_fields true 7 (by decide)⟩

/-- Witness for C10: the ICMP factory returns the live handle together
with the EPERM error, the UDP factory returns a nil handle on its
failure, and the userspace ICMP factory ignores the failing option
setter entirely. -/
theorem conn_factories_return_shape_witness :
    getICMPConn sampleICMPSockEnvFail false .kernel =
      (some sampleConn, some (.basic "EPERM")) ∧
    (getUDPConnKernelTimestamp sampleUDPSockEnvFail).1 = none ∧
    getICMPConn sampleICMPSockEnvFail false .userspace = (some sampleConn, none) :=
  ⟨conn_factories_return_shape.1 sampleICMPSockEnvFail false sampleConn _ rfl rfl,
    conn_factories_return_shape.2.1 sampleUDPSockEnvFail (by decide),
    conn_factories_return_shape.2.2 sampleICMPSockEnvFail false sampleConn rfl⟩
